import Mathlib

/-!
# Verification of `src/windowed_context.rs` (dioxus_native_graphics)

Shallow embedding of the windowed graphics context manager
(`WindowedContext::from_tao_window`, `resize`, and the struct's drop
behaviour) from `src/src/windowed_context.rs`, together with proofs of the
spec's testable properties.

Native (glutin / three_d backend) calls are modelled by a `NativeBackend`
record of oracles: each native operation that can fail is a field returning
`Except NativeError _`.  Every modelled operation additionally produces a
trace of `Ev` events recording, in order, the native calls made together
with the arguments passed to them, so that ordering / "no native call"
properties can be stated.

Machine integers (`u8` multisample counts, `u32` pixel sizes) are modelled
as `Nat`; none of the verified code performs arithmetic that can wrap.
-/

set_option autoImplicit false

namespace DioxusNativeGraphics

/-- Raw display handle obtained from the tao window (opaque). -/
abbrev RawDisplayHandle := Nat

/-- Raw window handle obtained from the tao window (opaque). -/
abbrev RawWindowHandle := Nat

/-- A glutin `Display` handle returned by `Display::new` (opaque). -/
abbrev Display := Nat

/-- A glutin `Config` as enumerated by `Display::find_configs` (opaque). -/
abbrev Config := Nat

/-- An opaque native-backend error payload; `?` on a native call wraps it
into `WindowError.NativeFailure`. -/
abbrev NativeError := Nat

/-- `tao::dpi::PhysicalSize<u32>`: a physical pixel size. -/
structure PhysicalSize where
  width : Nat
  height : Nat
  deriving Repr, DecidableEq

/-- The part of `tao::window::Window` that `from_tao_window` reads: the two
raw handles and the current inner size. -/
structure Window where
  raw_display_handle : RawDisplayHandle
  raw_window_handle : RawWindowHandle
  inner_size : PhysicalSize
  deriving Repr, DecidableEq

/-- `three_d::HardwareAcceleration`. -/
inductive HardwareAcceleration where
  | Required
  | Preferred
  | Off
  deriving Repr, DecidableEq

/-- `three_d::SurfaceSettings` as consumed by `from_tao_window`
(`multisamples` is a `u8` in the source, `depth_buffer`/`stencil_buffer`
are `u8`). -/
structure SurfaceSettings where
  vsync : Bool
  depth_buffer : Nat
  stencil_buffer : Nat
  multisamples : Nat
  hardware_acceleration : HardwareAcceleration
  deriving Repr, DecidableEq

/-- The variants of `three_d::WindowError` that the source code mentions
explicitly, plus a wrapper for propagated native-backend errors (the
source's `?` conversions). -/
inductive WindowError where
  | InvalidNumberOfMSAASamples
  | SurfaceCreationError
  | NativeFailure (e : NativeError)
  deriving Repr, DecidableEq

/-- `glutin::surface::SwapInterval`. -/
inductive SwapInterval where
  | Wait (n : Nat)
  | DontWait
  deriving Repr, DecidableEq

/-- `glutin::display::DisplayApiPreference` (the variants used by the
source; the xlib error hook payload of `EglThenGlx` is an opaque function
pointer and is not modelled). -/
inductive DisplayApiPreference where
  | WglThenEgl (raw_window_handle : Option RawWindowHandle)
  | EglThenGlx
  | Cgl
  | Egl
  deriving Repr, DecidableEq

/-- The compilation target (`#[cfg(target_os = ...)]`): exactly one of the
four `cfg` branches of the source is compiled in. -/
inductive TargetOS where
  | windows
  | linux
  | macos
  | android
  deriving Repr, DecidableEq

/-- Lines 44-55: the statically selected `DisplayApiPreference` for each
target OS. On Windows the raw window handle is passed to `WglThenEgl`. -/
def displayApiPreference (os : TargetOS) (raw_window_handle : RawWindowHandle) :
    DisplayApiPreference :=
  match os with
  | .windows => .WglThenEgl (some raw_window_handle)
  | .linux => .EglThenGlx
  | .macos => .Cgl
  | .android => .Egl

/-- `std::num::NonZeroU32::new`: `some n` iff `n ≠ 0`. -/
def nonZeroU32New (n : Nat) : Option Nat :=
  if n = 0 then none else some n

/-- `u8::is_power_of_two` (documented semantics of the Rust standard
library: true iff the value equals `2^k` for some `k`; for a `u8` the
exponent is below 8). -/
def isPowerOfTwo (n : Nat) : Bool :=
  (List.range 8).any fun k => n = 2 ^ k

/-- Lines 59-63: the requested swap interval;
`NonZeroU32::new(1).unwrap()` evaluates to `1`. -/
def swapIntervalOf (vsync : Bool) : SwapInterval :=
  if vsync then .Wait 1 else .DontWait

/-- Lines 65-69: the `Option<bool>` handed to
`prefer_hardware_accelerated`. -/
def hardwareAccelerationOf : HardwareAcceleration → Option Bool
  | .Required => some true
  | .Preferred => none
  | .Off => some false

/-- The fields of a built `glutin::config::ConfigTemplate` that the source
sets (all other template fields keep their builder defaults and are not
modelled). In `ConfigTemplateBuilder::new()` multisampling defaults to
`none` and no native window is attached. -/
structure ConfigTemplate where
  prefer_hardware_accelerated : Option Bool
  depth_size : Nat
  stencil_size : Nat
  multisampling : Option Nat
  native_window : Option RawWindowHandle
  deriving Repr, DecidableEq

/-- Lines 70-82: build the `ConfigTemplate` from the settings. The
builder chain is: `prefer_hardware_accelerated`, `with_depth_size`,
conditionally `with_multisampling` (only when `multisamples > 0`),
`with_stencil_size`, `compatible_with_native_window`, `build`. -/
def buildConfigTemplate (settings : SurfaceSettings)
    (raw_window_handle : RawWindowHandle) : ConfigTemplate :=
  let base : ConfigTemplate :=
    { prefer_hardware_accelerated := hardwareAccelerationOf settings.hardware_acceleration
      depth_size := settings.depth_buffer
      stencil_size := 8    -- builder default, overwritten below
      multisampling := none
      native_window := none }
  let withMs :=
    if settings.multisamples > 0 then
      { base with multisampling := some settings.multisamples }
    else
      base
  { withMs with
      stencil_size := settings.stencil_buffer
      native_window := some raw_window_handle }

/-- `glutin::context::ContextAttributesBuilder::new().build(Some(h))`: the
only attribute the source sets is the raw window handle. -/
abbrev ContextAttributes := Option RawWindowHandle

/-- Lines 100-102: the built window-surface attributes (handle and the two
`NonZeroU32` dimensions). -/
structure SurfaceAttributes where
  raw_window_handle : RawWindowHandle
  width : Nat
  height : Nat
  deriving Repr, DecidableEq

instance {ε α : Type} [DecidableEq ε] [DecidableEq α] : DecidableEq (Except ε α) :=
  fun a b =>
    match a, b with
    | .ok x, .ok y => decidable_of_iff (x = y) (by simp)
    | .error x, .error y => decidable_of_iff (x = y) (by simp)
    | .ok _, .error _ => .isFalse (by simp)
    | .error _, .ok _ => .isFalse (by simp)

/-- Trace events: one per native backend call (with the arguments the
source passes), plus drop events for handles going out of scope. -/
inductive Ev where
  /-- `glutin::display::Display::new(raw_display_handle, preference)` -/
  | new_display (raw_display_handle : RawDisplayHandle) (preference : DisplayApiPreference)
  /-- `gl_display.find_configs(config_template)` -/
  | find_configs (template : ConfigTemplate)
  /-- `gl_display.create_context(&config, &context_attributes)` -/
  | create_context (config : Config) (attrs : ContextAttributes)
  /-- `gl_display.create_window_surface(&config, &surface_attributes)` -/
  | create_window_surface (config : Config) (attrs : SurfaceAttributes)
  /-- `gl_context.make_current(&gl_surface)` -/
  | make_current
  /-- `gl_surface.set_swap_interval(&gl_context, swap_interval)` -/
  | set_swap_interval (interval : SwapInterval)
  /-- `three_d::context::Context::from_loader_function(...)` resolving GL
  procedure addresses through `gl_display.get_proc_address` -/
  | load_gl_functions
  /-- the native surface resize call issued by `resize`, recording the
  dimensions passed and the native outcome (which the wrapper discards) -/
  | native_resize (width height : Nat) (outcome : Except NativeError Unit)
  /-- the local `gl_display` binding of `from_tao_window` going out of
  scope when the function returns -/
  | drop_display
  /-- drop of the `context: Context` field (first declared field) -/
  | drop_context
  /-- drop of the `surface: Surface<WindowSurface>` field -/
  | drop_surface
  /-- drop of the `glutin_context: PossiblyCurrentContext` field -/
  | drop_glutin_context
  deriving Repr, DecidableEq

/-- Oracle for the native backend: the outcome of each fallible native call
the source makes, as a function of the arguments the source passes. -/
structure NativeBackend where
  new_display : RawDisplayHandle → DisplayApiPreference → Except NativeError Display
  find_configs : Display → ConfigTemplate → Except NativeError (List Config)
  create_context : Display → Config → ContextAttributes → Except NativeError Unit
  create_window_surface : Display → Config → SurfaceAttributes → Except NativeError Unit
  make_current : Except NativeError Unit
  set_swap_interval : SwapInterval → Except NativeError Unit
  from_gl_context : Except NativeError Unit
  resize_surface : Nat → Nat → Except NativeError Unit

/-- Observable state of the presentable surface: its size in physical
pixels. -/
structure SurfaceState where
  width : Nat
  height : Nat
  deriving Repr, DecidableEq

/-- The `WindowedContext` aggregate (struct at lines 8-12). The three
fields are declared in the order `context`, `surface`, `glutin_context`;
Rust drops fields in declaration order. The native handles themselves are
opaque; the observable model state is the surface size. -/
structure WindowedContext where
  context : Unit
  surface : SurfaceState
  glutin_context : Unit
  deriving Repr, DecidableEq

/-- Lines 59-123 of `from_tao_window`, after the display has been created
successfully: everything from the swap-interval computation to the final
`Ok(Self { ... })`. Returns the result together with the trace of native
calls made (not including the `Display::new` call or the final drop of
`gl_display`, which the caller `from_tao_window` adds). -/
def constructWithDisplay (B : NativeBackend) (d : Display) (window : Window)
    (settings : SurfaceSettings) :
    Except WindowError WindowedContext × List Ev :=
  let swap_interval := swapIntervalOf settings.vsync
  let config_template := buildConfigTemplate settings window.raw_window_handle
  match B.find_configs d config_template with
  | .error e => (.error (.NativeFailure e), [.find_configs config_template])
  | .ok configs =>
    -- `.next().ok_or(WindowError::SurfaceCreationError)?`
    match configs with
    | [] => (.error .SurfaceCreationError, [.find_configs config_template])
    | config :: _ =>
      let context_attributes : ContextAttributes := some window.raw_window_handle
      -- lines 97-99: `width.max(1)` / `height.max(1)` wrapped in
      -- `NonZeroU32::new(..).unwrap()`; the unwrap is proved panic-free
      -- separately (see `nonZeroU32New_max_one_isSome`)
      let width := Nat.max window.inner_size.width 1
      let height := Nat.max window.inner_size.height 1
      let surface_attributes : SurfaceAttributes :=
        { raw_window_handle := window.raw_window_handle
          width := width
          height := height }
      match B.create_context d config context_attributes with
      | .error e =>
          (.error (.NativeFailure e),
            [.find_configs config_template, .create_context config context_attributes])
      | .ok _ =>
        match B.create_window_surface d config surface_attributes with
        | .error e =>
            (.error (.NativeFailure e),
              [.find_configs config_template, .create_context config context_attributes,
                .create_window_surface config surface_attributes])
        | .ok _ =>
          match B.make_current with
          | .error e =>
              (.error (.NativeFailure e),
                [.find_configs config_template, .create_context config context_attributes,
                  .create_window_surface config surface_attributes, .make_current])
          | .ok _ =>
            match B.set_swap_interval swap_interval with
            | .error e =>
                (.error (.NativeFailure e),
                  [.find_configs config_template, .create_context config context_attributes,
                    .create_window_surface config surface_attributes, .make_current,
                    .set_swap_interval swap_interval])
            | .ok _ =>
              match B.from_gl_context with
              | .error e =>
                  (.error (.NativeFailure e),
                    [.find_configs config_template, .create_context config context_attributes,
                      .create_window_surface config surface_attributes, .make_current,
                      .set_swap_interval swap_interval, .load_gl_functions])
              | .ok _ =>
                  (.ok { context := ()
                         surface := { width := width, height := height }
                         glutin_context := () },
                    [.find_configs config_template, .create_context config context_attributes,
                      .create_window_surface config surface_attributes, .make_current,
                      .set_swap_interval swap_interval, .load_gl_functions])

/-- `WindowedContext::from_tao_window` (lines 25-123), parameterised by the
native backend and the compilation target. Returns the result and the full
trace of native calls. `gl_display` is a local of the function, so on every
path on which the display was created its drop event ends the trace. -/
def from_tao_window (B : NativeBackend) (os : TargetOS) (window : Window)
    (settings : SurfaceSettings) :
    Except WindowError WindowedContext × List Ev :=
  -- lines 29-31: multisample validation, before any native call
  if settings.multisamples > 0 && !isPowerOfTwo settings.multisamples then
    (.error .InvalidNumberOfMSAASamples, [])
  else
    let raw_display_handle := window.raw_display_handle
    let raw_window_handle := window.raw_window_handle
    let preference := displayApiPreference os raw_window_handle
    match B.new_display raw_display_handle preference with
    | .error e =>
        (.error (.NativeFailure e), [.new_display raw_display_handle preference])
    | .ok d =>
        let r := constructWithDisplay B d window settings
        (r.1, .new_display raw_display_handle preference :: (r.2 ++ [.drop_display]))

/-- `WindowedContext::resize` (lines 126-130): clamp each dimension with
`.max(1)` and issue the native surface resize; the native outcome is
discarded (the wrapper returns `()`). -/
def WindowedContext.resize (B : NativeBackend) (c : WindowedContext)
    (physical_size : PhysicalSize) : WindowedContext × List Ev :=
  let width := Nat.max physical_size.width 1
  let height := Nat.max physical_size.height 1
  ({ c with surface := { width := width, height := height } },
    [.native_resize width height (B.resize_surface width height)])

/-- `resize` with the two `NonZeroU32::new(..).unwrap()` calls modelled
explicitly: `none` is the panic of `unwrap`. Proven to always return `some`
and to agree with `WindowedContext.resize`. -/
def WindowedContext.resizeChecked (B : NativeBackend) (c : WindowedContext)
    (physical_size : PhysicalSize) : Option (WindowedContext × List Ev) :=
  match nonZeroU32New (Nat.max physical_size.width 1),
        nonZeroU32New (Nat.max physical_size.height 1) with
  | some width, some height =>
      some ({ c with surface := { width := width, height := height } },
        [.native_resize width height (B.resize_surface width height)])
  | _, _ => none

/-- The surface dimensions computed at lines 97-99 of `from_tao_window`,
with the `NonZeroU32::new(..).unwrap()` calls modelled explicitly (`none`
is the panic of `unwrap`). -/
def constructDimsChecked (window : Window) : Option (Nat × Nat) :=
  match nonZeroU32New (Nat.max window.inner_size.width 1),
        nonZeroU32New (Nat.max window.inner_size.height 1) with
  | some width, some height => some (width, height)
  | _, _ => none

/-- Destruction of the aggregate: Rust drops struct fields in declaration
order, so dropping a `WindowedContext` drops `context`, then `surface`,
then `glutin_context`. No display connection is a field of the struct, so
none is released here. -/
def WindowedContext.dropTrace (_ : WindowedContext) : List Ev :=
  [.drop_context, .drop_surface, .drop_glutin_context]

/-- The dimensions an event passes to the native surface API, when it is a
surface-creating or surface-resizing call. -/
def Ev.surfaceDims : Ev → Option (Nat × Nat)
  | .create_window_surface _ attrs => some (attrs.width, attrs.height)
  | .native_resize w h _ => some (w, h)
  | _ => none

/-! ## Concrete fixtures used to instantiate the theorems -/

/-- A backend on which every native call succeeds; `find_configs`
enumerates two matching configurations `[5, 6]`. -/
def okBackend : NativeBackend where
  new_display := fun _ _ => .ok 0
  find_configs := fun _ _ => .ok [5, 6]
  create_context := fun _ _ _ => .ok ()
  create_window_surface := fun _ _ _ => .ok ()
  make_current := .ok ()
  set_swap_interval := fun _ => .ok ()
  from_gl_context := .ok ()
  resize_surface := fun _ _ => .ok ()

/-- A backend whose configuration enumeration matches nothing. -/
def noConfigBackend : NativeBackend :=
  { okBackend with find_configs := fun _ _ => .ok [] }

/-- A backend on which only the swap-interval call fails natively. -/
def failingSwapIntervalBackend : NativeBackend :=
  { okBackend with set_swap_interval := fun _ => .error 7 }

/-- A backend on which only the native surface resize fails. -/
def failingResizeBackend : NativeBackend :=
  { okBackend with resize_surface := fun _ _ => .error 7 }

/-- An 800×600 window with arbitrary concrete raw handles. -/
def testWindow : Window :=
  { raw_display_handle := 10, raw_window_handle := 11, inner_size := ⟨800, 600⟩ }

/-- `three_d::SurfaceSettings::default()`: vsync on, 24-bit depth, 8-bit
stencil, no multisampling, hardware acceleration preferred. -/
def defaultSettings : SurfaceSettings :=
  { vsync := true
    depth_buffer := 24
    stencil_buffer := 8
    multisamples := 0
    hardware_acceleration := .Preferred }

/-- Settings with the invalid multisample count 3 (Scenario B of the spec). -/
def msaa3Settings : SurfaceSettings :=
  { defaultSettings with multisamples := 3 }

/-- A concrete already-constructed aggregate with an 800×600 surface. -/
def ctx0 : WindowedContext :=
  { context := (), surface := ⟨800, 600⟩, glutin_context := () }

/-! ## Theorems -/

/-- C8: the display-backend preference is a static per-platform choice:
Windows uses WGL-then-EGL with the window handle, Linux uses EGL-then-GLX,
macOS uses CGL unconditionally, Android uses EGL unconditionally. -/
theorem displayApiPreference_per_platform (h : RawWindowHandle) :
    displayApiPreference .windows h = .WglThenEgl (some h)
    ∧ displayApiPreference .linux h = .EglThenGlx
    ∧ displayApiPreference .macos h = .Cgl
    ∧ displayApiPreference .android h = .Egl :=
  ⟨rfl, rfl, rfl, rfl⟩

/-- C7: the built `ConfigTemplate` requires hardware acceleration for
`Required`, leaves it unconstrained for `Preferred`, disallows it for
`Off`; carries exactly the requested depth and stencil sizes; requests
multisampling iff `multisamples > 0`, with exactly that sample count; and
is made compatible with the specific native window. -/
theorem config_template_matches_settings (s : SurfaceSettings) (h : RawWindowHandle) :
    (buildConfigTemplate s h).prefer_hardware_accelerated
      = (match s.hardware_acceleration with
          | .Required => some true
          | .Preferred => none
          | .Off => some false)
    ∧ (buildConfigTemplate s h).depth_size = s.depth_buffer
    ∧ (buildConfigTemplate s h).stencil_size = s.stencil_buffer
    ∧ (buildConfigTemplate s h).multisampling
        = (if 0 < s.multisamples then some s.multisamples else none)
    ∧ (buildConfigTemplate s h).native_window = some h := by
  rcases s with ⟨v, d, st, ms, ha⟩
  cases ha <;> by_cases hms : 0 < ms <;>
    simp [buildConfigTemplate, hardwareAccelerationOf, hms]

/-- C10: the `NonZeroU32::new(..).unwrap()` calls in construction
(lines 98-99) and in `resize` (lines 127-128) never panic: after the
`.max(1)` clamp the argument is nonzero, so `NonZeroU32::new` always
returns `some`, the `none` (panic) branch is unreachable, and the checked
version of `resize` is total and agrees with `resize`. -/
theorem nonzero_unwraps_never_panic :
    (∀ n : Nat, nonZeroU32New (Nat.max n 1) = some (Nat.max n 1))
    ∧ (∀ w : Window, constructDimsChecked w
        = some (Nat.max w.inner_size.width 1, Nat.max w.inner_size.height 1))
    ∧ (∀ (B : NativeBackend) (c : WindowedContext) (p : PhysicalSize),
        WindowedContext.resizeChecked B c p = some (WindowedContext.resize B c p)) := by
  have key : ∀ n : Nat, nonZeroU32New (Nat.max n 1) = some (Nat.max n 1) := by
    intro n
    have h1 : 1 ≤ Nat.max n 1 := Nat.le_max_right n 1
    have h0 : Nat.max n 1 ≠ 0 := by omega
    simp [nonZeroU32New, h0]
  refine ⟨key, fun w => ?_, fun B c p => ?_⟩
  · simp [constructDimsChecked, key]
  · simp [WindowedContext.resizeChecked, WindowedContext.resize, key]

/-- C9: `resize` is idempotent: calling it twice with the same physical
size leaves the aggregate in the same observable state as calling it once,
and the second call's side effects are exactly one more identical native
resize call. -/
theorem resize_idempotent (B : NativeBackend) (c : WindowedContext) (p : PhysicalSize) :
    (WindowedContext.resize B (WindowedContext.resize B c p).1 p).1
        = (WindowedContext.resize B c p).1
    ∧ (WindowedContext.resize B (WindowedContext.resize B c p).1 p).2
        = (WindowedContext.resize B c p).2 := by
  constructor <;> simp [WindowedContext.resize]

/-- Helper: once validation has passed and the display was created, the
result of `from_tao_window` is the result of `constructWithDisplay`, and
its trace is the `Display::new` call, then `constructWithDisplay`'s calls,
then the drop of the local `gl_display`. -/
theorem from_tao_window_eq_of_display (B : NativeBackend) (os : TargetOS) (w : Window)
    (s : SurfaceSettings) (d : Display)
    (hvalid : (s.multisamples > 0 && !isPowerOfTwo s.multisamples) = false)
    (hdisp : B.new_display w.raw_display_handle
        (displayApiPreference os w.raw_window_handle) = .ok d) :
    from_tao_window B os w s
      = ((constructWithDisplay B d w s).1,
          .new_display w.raw_display_handle (displayApiPreference os w.raw_window_handle)
            :: ((constructWithDisplay B d w s).2 ++ [.drop_display])) := by
  simp [from_tao_window, hvalid, hdisp]

/-- Helper: the post-display stage can fail only with
`SurfaceCreationError` or a propagated native error, never with the
multisample-validation error. -/
theorem constructWithDisplay_error_kinds (B : NativeBackend) (d : Display) (w : Window)
    (s : SurfaceSettings) :
    (constructWithDisplay B d w s).1 ≠ .error .InvalidNumberOfMSAASamples := by
  simp only [constructWithDisplay]
  repeat' split
  all_goals simp

/-- Helper: every dimension pair handed to the native surface API during
the post-display stage is the window's inner size clamped with `max 1`. -/
theorem constructWithDisplay_dims (B : NativeBackend) (d : Display) (w : Window)
    (s : SurfaceSettings) :
    ∀ ev ∈ (constructWithDisplay B d w s).2, ∀ dims, Ev.surfaceDims ev = some dims →
      dims = (Nat.max w.inner_size.width 1, Nat.max w.inner_size.height 1) := by
  simp only [constructWithDisplay]
  repeat' split
  all_goals intro ev hmem dims hdims
  all_goals fin_cases hmem <;> simp_all [Ev.surfaceDims]

/-- Helper: a successfully assembled aggregate carries the clamped inner
size as its surface size. -/
theorem constructWithDisplay_ok_surface (B : NativeBackend) (d : Display) (w : Window)
    (s : SurfaceSettings) (ctx : WindowedContext)
    (hok : (constructWithDisplay B d w s).1 = .ok ctx) :
    ctx.surface = ⟨Nat.max w.inner_size.width 1, Nat.max w.inner_size.height 1⟩ := by
  simp only [constructWithDisplay] at hok
  repeat' split at hok
  all_goals (try simp_all)
  all_goals (subst hok; rfl)

/-- Helper: when the enumeration yields nothing, the post-display stage
fails with `SurfaceCreationError` right after the `find_configs` call. -/
theorem constructWithDisplay_no_config (B : NativeBackend) (d : Display) (w : Window)
    (s : SurfaceSettings)
    (hfc : B.find_configs d (buildConfigTemplate s w.raw_window_handle) = .ok []) :
    constructWithDisplay B d w s
      = (.error .SurfaceCreationError,
          [.find_configs (buildConfigTemplate s w.raw_window_handle)]) := by
  simp [constructWithDisplay, hfc]

/-- Helper: when the enumeration yields `cfg` first, every context- and
surface-creation call of the post-display stage is made against `cfg`. -/
theorem constructWithDisplay_config_events (B : NativeBackend) (d : Display) (w : Window)
    (s : SurfaceSettings) (cfg : Config) (rest : List Config)
    (hfc : B.find_configs d (buildConfigTemplate s w.raw_window_handle) = .ok (cfg :: rest)) :
    ∀ ev ∈ (constructWithDisplay B d w s).2,
      (∀ c a, ev = Ev.create_context c a → c = cfg)
      ∧ (∀ c a, ev = Ev.create_window_surface c a → c = cfg) := by
  simp only [constructWithDisplay, hfc]
  repeat' split
  all_goals intro ev hmem
  all_goals fin_cases hmem <;> constructor <;> intro c a hev <;> simp_all

/-- C1: for settings whose multisample count is nonzero and not a power of
two, `from_tao_window` fails with `InvalidNumberOfMSAASamples` before any
native call (empty trace); for a zero or power-of-two count the validation
passes — the result is never that error and the first thing that happens
is the native `Display::new` call. -/
theorem msaa_validation_first (B : NativeBackend) (os : TargetOS) (w : Window)
    (s : SurfaceSettings) :
    (0 < s.multisamples ∧ isPowerOfTwo s.multisamples = false →
        from_tao_window B os w s = (.error .InvalidNumberOfMSAASamples, []))
    ∧ (s.multisamples = 0 ∨ isPowerOfTwo s.multisamples = true →
        (from_tao_window B os w s).1 ≠ .error .InvalidNumberOfMSAASamples
        ∧ (from_tao_window B os w s).2.head?
            = some (.new_display w.raw_display_handle
                (displayApiPreference os w.raw_window_handle))) := by
  constructor
  · rintro ⟨hpos, hpow⟩
    simp [from_tao_window, hpos, hpow]
  · intro hpass
    have hvalid : (s.multisamples > 0 && !isPowerOfTwo s.multisamples) = false := by
      rcases hpass with h | h <;> simp [h]
    rcases hdisp : B.new_display w.raw_display_handle
        (displayApiPreference os w.raw_window_handle) with e | d
    · constructor <;> simp [from_tao_window, hvalid, hdisp]
    · refine ⟨?_, ?_⟩ <;>
        simp [from_tao_window_eq_of_display B os w s d hvalid hdisp,
          constructWithDisplay_error_kinds B d w s]

/-- Witness for C1: with `multisamples = 3` construction fails immediately
with the MSAA error and an empty trace; with the default settings
(`multisamples = 0`) it does not produce that error. -/
theorem msaa_validation_first_witness :
    from_tao_window okBackend .linux testWindow msaa3Settings
        = (.error .InvalidNumberOfMSAASamples, [])
    ∧ (from_tao_window okBackend .linux testWindow defaultSettings).1
        ≠ .error .InvalidNumberOfMSAASamples := by
  refine ⟨(msaa_validation_first okBackend .linux testWindow msaa3Settings).1 ⟨?_, ?_⟩,
      ((msaa_validation_first okBackend .linux testWindow defaultSettings).2 ?_).1⟩
  · decide
  · decide
  · exact Or.inl rfl

/-- C5: `resize` returns unit for every input: a native failure of the
underlying surface resize is swallowed — the wrapper's result (the updated
aggregate, and exactly one native resize call in the trace) is the same as
on success, the error appears only inside the discarded native outcome,
and no error or panic reaches the caller. -/
theorem resize_swallows_native_failure (B : NativeBackend) (c : WindowedContext)
    (p : PhysicalSize) (e : NativeError)
    (hfail : B.resize_surface (Nat.max p.width 1) (Nat.max p.height 1) = .error e) :
    WindowedContext.resize B c p
      = ({ c with surface := { width := Nat.max p.width 1, height := Nat.max p.height 1 } },
          [.native_resize (Nat.max p.width 1) (Nat.max p.height 1) (.error e)])
    ∧ (∀ B' : NativeBackend, (WindowedContext.resize B' c p).1
        = (WindowedContext.resize B c p).1) := by
  constructor
  · simp [WindowedContext.resize, hfail]
  · intro B'
    simp [WindowedContext.resize]

/-- Witness for C5: on a backend whose native resize fails with error 7,
`resize (0, 0)` still returns the aggregate updated to the clamped 1×1
surface, with the failure recorded only in the discarded native outcome. -/
theorem resize_swallows_native_failure_witness :
    WindowedContext.resize failingResizeBackend ctx0 ⟨0, 0⟩
      = ({ ctx0 with surface := { width := Nat.max 0 1, height := Nat.max 0 1 } },
          [.native_resize (Nat.max 0 1) (Nat.max 0 1) (.error 7)]) :=
  (resize_swallows_native_failure failingResizeBackend ctx0 ⟨0, 0⟩ 7 rfl).1

/-- C2: construction and resize clamp each dimension with `max 1` before
passing it to the native surface API: every dimension pair handed to the
native surface API in a construction trace is the window's inner size
clamped to at least 1 (and never zero); a successfully constructed
aggregate carries that clamped size; and `resize` updates the surface to
the clamped requested size, passing only clamped (never zero) dimensions
natively. -/
theorem surface_dims_clamped (B : NativeBackend) (os : TargetOS) (w : Window)
    (s : SurfaceSettings) (c : WindowedContext) (p : PhysicalSize) :
    (∀ ev ∈ (from_tao_window B os w s).2, ∀ dims, Ev.surfaceDims ev = some dims →
        dims = (Nat.max w.inner_size.width 1, Nat.max w.inner_size.height 1)
        ∧ 1 ≤ dims.1 ∧ 1 ≤ dims.2)
    ∧ (∀ ctx, (from_tao_window B os w s).1 = .ok ctx →
        ctx.surface = ⟨Nat.max w.inner_size.width 1, Nat.max w.inner_size.height 1⟩)
    ∧ (WindowedContext.resize B c p).1.surface
        = ⟨Nat.max p.width 1, Nat.max p.height 1⟩
    ∧ (∀ ev ∈ (WindowedContext.resize B c p).2, ∀ dims, Ev.surfaceDims ev = some dims →
        dims = (Nat.max p.width 1, Nat.max p.height 1) ∧ 1 ≤ dims.1 ∧ 1 ≤ dims.2) := by
  have hdims1 : ∀ ev ∈ (from_tao_window B os w s).2, ∀ dims, Ev.surfaceDims ev = some dims →
      dims = (Nat.max w.inner_size.width 1, Nat.max w.inner_size.height 1) := by
    by_cases hval : (s.multisamples > 0 && !isPowerOfTwo s.multisamples) = true
    · simp [from_tao_window, hval]
    · rw [Bool.not_eq_true] at hval
      rcases hdisp : B.new_display w.raw_display_handle
          (displayApiPreference os w.raw_window_handle) with e | d
      · simp [from_tao_window, hval, hdisp, Ev.surfaceDims]
      · rw [from_tao_window_eq_of_display B os w s d hval hdisp]
        intro ev hmem dims hdims
        simp only [List.mem_cons, List.mem_append, List.mem_singleton,
          List.not_mem_nil, or_false] at hmem
        rcases hmem with rfl | hmem | rfl
        · simp [Ev.surfaceDims] at hdims
        · exact constructWithDisplay_dims B d w s ev hmem dims hdims
        · simp [Ev.surfaceDims] at hdims
  have hok2 : ∀ ctx, (from_tao_window B os w s).1 = .ok ctx →
      ctx.surface = ⟨Nat.max w.inner_size.width 1, Nat.max w.inner_size.height 1⟩ := by
    intro ctx hok
    by_cases hval : (s.multisamples > 0 && !isPowerOfTwo s.multisamples) = true
    · simp [from_tao_window, hval] at hok
    · rw [Bool.not_eq_true] at hval
      rcases hdisp : B.new_display w.raw_display_handle
          (displayApiPreference os w.raw_window_handle) with e | d
      · simp [from_tao_window, hval, hdisp] at hok
      · rw [from_tao_window_eq_of_display B os w s d hval hdisp] at hok
        exact constructWithDisplay_ok_surface B d w s ctx hok
  refine ⟨fun ev hmem dims hdims => ?_, hok2, ?_, fun ev hmem dims hdims => ?_⟩
  · obtain rfl := hdims1 ev hmem dims hdims
    exact ⟨rfl, Nat.le_max_right _ 1, Nat.le_max_right _ 1⟩
  · simp [WindowedContext.resize]
  · simp only [WindowedContext.resize, List.mem_singleton] at hmem
    subst hmem
    simp only [Ev.surfaceDims, Option.some.injEq] at hdims
    obtain rfl := hdims.symm
    exact ⟨rfl, Nat.le_max_right _ 1, Nat.le_max_right _ 1⟩

/-- Witness for C2: the surface-creation call of a concrete successful
construction against the 800×600 window passes exactly the clamped
(800, 600) dimensions, which are at least 1 each. -/
theorem surface_dims_clamped_witness :
    ((800 : Nat), (600 : Nat)) = (Nat.max 800 1, Nat.max 600 1)
      ∧ 1 ≤ ((800 : Nat), (600 : Nat)).1 ∧ 1 ≤ ((800 : Nat), (600 : Nat)).2 :=
  (surface_dims_clamped okBackend .linux testWindow defaultSettings ctx0 ⟨0, 0⟩).1
    (.create_window_surface 5 ⟨11, 800, 600⟩) (by decide) (800, 600) (by decide)

/-- C3 counterexample: on a backend whose configuration enumeration
matches nothing, the code fails with `WindowError.SurfaceCreationError`
itself — the same kind the source names for surface creation — not with a
dedicated no-compatible-configuration error kind distinct from it. -/
theorem no_config_uses_surface_creation_error :
    (from_tao_window noConfigBackend .linux testWindow defaultSettings).1
      = .error .SurfaceCreationError := rfl

/-- C3 (amended): when the display's enumeration of configurations
matching the built template yields no element, `from_tao_window` fails
with `WindowError::SurfaceCreationError` (the surface-creation error kind,
reused — the source defines no dedicated no-compatible-configuration
error); otherwise the first enumerated configuration is the one passed to
both the context-creation and the surface-creation native calls. -/
theorem first_config_or_surface_creation_error (B : NativeBackend) (os : TargetOS)
    (w : Window) (s : SurfaceSettings) (d : Display)
    (hvalid : (s.multisamples > 0 && !isPowerOfTwo s.multisamples) = false)
    (hdisp : B.new_display w.raw_display_handle
        (displayApiPreference os w.raw_window_handle) = .ok d) :
    (B.find_configs d (buildConfigTemplate s w.raw_window_handle) = .ok [] →
        (from_tao_window B os w s).1 = .error .SurfaceCreationError)
    ∧ (∀ cfg rest,
        B.find_configs d (buildConfigTemplate s w.raw_window_handle) = .ok (cfg :: rest) →
        ∀ ev ∈ (from_tao_window B os w s).2,
          (∀ c a, ev = Ev.create_context c a → c = cfg)
          ∧ (∀ c a, ev = Ev.create_window_surface c a → c = cfg)) := by
  constructor
  · intro hfc
    rw [from_tao_window_eq_of_display B os w s d hvalid hdisp]
    simp [constructWithDisplay_no_config B d w s hfc]
  · intro cfg rest hfc ev hmem
    rw [from_tao_window_eq_of_display B os w s d hvalid hdisp] at hmem
    simp only [List.mem_cons, List.mem_append, List.mem_singleton,
      List.not_mem_nil, or_false] at hmem
    rcases hmem with rfl | hmem | rfl
    · constructor <;> intro c a hev <;> simp_all
    · exact constructWithDisplay_config_events B d w s cfg rest hfc ev hmem
    · constructor <;> intro c a hev <;> simp_all

/-- Witness for C3 (amended): empty enumeration on a concrete backend
yields `SurfaceCreationError`; with enumeration `[5, 6]` the
context-creation call in the trace uses configuration 5, the first. -/
theorem first_config_or_surface_creation_error_witness :
    (from_tao_window noConfigBackend .linux testWindow defaultSettings).1
        = .error .SurfaceCreationError
    ∧ (5 : Config) = 5 := by
  constructor
  · exact (first_config_or_surface_creation_error noConfigBackend .linux testWindow
      defaultSettings 0 rfl rfl).1 rfl
  · exact ((first_config_or_surface_creation_error okBackend .linux testWindow
      defaultSettings 0 rfl rfl).2 5 [6] rfl
      (Ev.create_context 5 (some 11)) (by decide)).1 5 (some 11) rfl

/-- C4 counterexample: on a backend where only the swap-interval call
fails natively, `from_tao_window` does not return a successfully assembled
aggregate — it returns the propagated native error. -/
theorem swap_interval_failure_fails_construction :
    (from_tao_window failingSwapIntervalBackend .linux testWindow defaultSettings).1
      = .error (.NativeFailure 7) := rfl

/-- C4 (amended): a native failure of the swap-interval call during
construction is propagated by the `?` operator, not logged-and-swallowed:
when every earlier step succeeds and `set_swap_interval` fails,
`from_tao_window` returns that error and no aggregate. -/
theorem swap_interval_failure_propagates (B : NativeBackend) (os : TargetOS)
    (w : Window) (s : SurfaceSettings) (d : Display) (cfg : Config)
    (rest : List Config) (e : NativeError)
    (hvalid : (s.multisamples > 0 && !isPowerOfTwo s.multisamples) = false)
    (hdisp : B.new_display w.raw_display_handle
        (displayApiPreference os w.raw_window_handle) = .ok d)
    (hfc : B.find_configs d (buildConfigTemplate s w.raw_window_handle) = .ok (cfg :: rest))
    (hcc : B.create_context d cfg (some w.raw_window_handle) = .ok ())
    (hcws : B.create_window_surface d cfg
        ⟨w.raw_window_handle, Nat.max w.inner_size.width 1, Nat.max w.inner_size.height 1⟩
        = .ok ())
    (hmc : B.make_current = .ok ())
    (hssi : B.set_swap_interval (swapIntervalOf s.vsync) = .error e) :
    (from_tao_window B os w s).1 = .error (.NativeFailure e) := by
  rw [from_tao_window_eq_of_display B os w s d hvalid hdisp]
  simp [constructWithDisplay, hfc, hcc, hcws, hmc, hssi]

/-- Witness for C4 (amended): on the concrete backend whose swap-interval
call fails with native error 7, construction returns that error. -/
theorem swap_interval_failure_propagates_witness :
    (from_tao_window failingSwapIntervalBackend .linux testWindow defaultSettings).1
      = .error (.NativeFailure 7) :=
  swap_interval_failure_propagates failingSwapIntervalBackend .linux testWindow
    defaultSettings 0 5 [6] 7 rfl rfl rfl rfl rfl rfl rfl

/-- C6 counterexample: destroying a `WindowedContext` does release the
glutin rendering context (a field drop), but releases no display
connection at all — there is no display field, so `release_context
precedes release_display during destruction` fails: no display release
ever appears in the destruction trace. -/
theorem drop_releases_no_display :
    Ev.drop_glutin_context ∈ WindowedContext.dropTrace ctx0
    ∧ Ev.drop_display ∉ WindowedContext.dropTrace ctx0 := by decide

/-- C6 (amended): destruction drops the aggregate's fields in declaration
order — the wrapped `three_d` context, then the surface, then the glutin
rendering context — and releases no display connection: the display handle
is never stored in the aggregate; it is a local of `from_tao_window`,
dropped when construction returns (on every successful construction the
construction trace ends with the display drop, before any destruction). -/
theorem drop_order (c : WindowedContext) (B : NativeBackend) (os : TargetOS)
    (w : Window) (s : SurfaceSettings) (ctx : WindowedContext)
    (hok : (from_tao_window B os w s).1 = .ok ctx) :
    WindowedContext.dropTrace c = [.drop_context, .drop_surface, .drop_glutin_context]
    ∧ Ev.drop_display ∉ WindowedContext.dropTrace c
    ∧ (from_tao_window B os w s).2.getLast? = some .drop_display := by
  refine ⟨rfl, by simp [WindowedContext.dropTrace], ?_⟩
  by_cases hval : (s.multisamples > 0 && !isPowerOfTwo s.multisamples) = true
  · simp [from_tao_window, hval] at hok
  · rw [Bool.not_eq_true] at hval
    rcases hdisp : B.new_display w.raw_display_handle
        (displayApiPreference os w.raw_window_handle) with e | d
    · simp [from_tao_window, hval, hdisp] at hok
    · rw [from_tao_window_eq_of_display B os w s d hval hdisp]
      rw [show ∀ (a : Ev) (l l' : List Ev), a :: (l ++ l') = (a :: l) ++ l' from
        fun a l l' => (List.cons_append a l l').symm]
      exact List.getLast?_concat _

/-- Witness for C6 (amended): concrete destruction and construction traces
on the all-success backend. -/
theorem drop_order_witness :
    WindowedContext.dropTrace ctx0 = [.drop_context, .drop_surface, .drop_glutin_context]
    ∧ Ev.drop_display ∉ WindowedContext.dropTrace ctx0
    ∧ (from_tao_window okBackend .linux testWindow defaultSettings).2.getLast?
        = some .drop_display :=
  drop_order ctx0 okBackend .linux testWindow defaultSettings ⟨(), ⟨800, 600⟩, ()⟩ rfl

end DioxusNativeGraphics
